import Mathlib

/-!
Verification development for the LFT/LFP Discord listing bot (`src/bot.py`).

The development shallow-embeds the pure rendering helpers (`clean`,
`build_title_and_fields`, the embed construction inside `post_embed`) and the
stateful core (cooldown tracking, active-post registry, the
delete-previous/post/mark publish pipeline, moderation approve/reject, and the
expiry sweep) as executable Lean definitions, and proves the specified
properties about them.

Conventions of the embedding:
- Python strings are Lean `String` (sequences of Unicode code points, so
  `len`/slicing agree with `List.length`/`List.take` on `String.data`).
- `datetime` instants are natural numbers of seconds; `timedelta(minutes=m)`
  is `m * 60` and `timedelta(days=d)` is `d * 86400` seconds.
- Python dicts keyed by user id are association lists with Python semantics:
  updating an existing key keeps its position, a new key is appended,
  `pop` removes the entry.
- The Discord side is a small world model: a channel is reachable via
  `bot.get_channel` iff the `Config.accessible` predicate holds (never for
  id 0), existing messages live in `BotState.messages`, and a
  `Config.deleteFails` predicate chooses which `msg.delete()` calls raise.
  Logs (`published`, `deleteAttempts`, `dms`) record the side effects the
  claims count.
-/

namespace LftBot

/-- Whitespace as matched by the `\s` class of the Python `re` module on the
inputs at hand (space, tab, newline, carriage return, vertical tab, form
feed). -/
def isPySpace (c : Char) : Bool :=
  c = ' ' || c = '\t' || c = '\n' || c = '\r' || c = Char.ofNat 0x0b || c = Char.ofNat 0x0c

/-- One pass of `re.sub(r"\s+", " ", text)`: every maximal run of whitespace
characters becomes a single space.  The boolean argument records whether the
previous character was part of a whitespace run. -/
def collapseWs : Bool → List Char → List Char
  | _, [] => []
  | inRun, c :: cs =>
    if isPySpace c then
      if inRun then collapseWs true cs
      else ' ' :: collapseWs true cs
    else c :: collapseWs false cs

/-- Python `str.strip()`: drop leading and trailing whitespace. -/
def pyStrip (l : List Char) : List Char :=
  ((l.dropWhile isPySpace).reverse.dropWhile isPySpace).reverse

/-- `re.sub(r"\s+", " ", text).strip()` — the normalization step of `clean`
(bot.py line 52). -/
def normalizeWs (l : List Char) : List Char :=
  pyStrip (collapseWs false l)

/-- The string literal appended by `clean` when it truncates (bot.py
line 53).  The source file stores the bytes C3 A2 E2 82 AC C2 A6, which
Python (reading its source as UTF-8) decodes as the THREE characters
U+00E2, U+20AC, U+00A6 — a mojibake rendering of a single ellipsis, so the
appended marker has length 3, not 1. -/
def ellipsisLit : List Char :=
  [Char.ofNat 0xE2, Char.ofNat 0x20AC, Char.ofNat 0xA6]

/-- bot.py lines 51-53, `clean(text, limit=300)` on the character list:
normalize whitespace, then if the result is longer than `limit` keep the
first `limit - 1` characters and append the (3-character) ellipsis
literal. -/
def cleanL (l : List Char) (limit : Nat) : List Char :=
  let t := normalizeWs l
  if limit < t.length then t.take (limit - 1) ++ ellipsisLit else t

/-- bot.py lines 51-53, `clean` on `String`. -/
def clean (s : String) (limit : Nat := 300) : String :=
  ⟨cleanL s.data limit⟩

/-- The two submission kinds: `"lft"` (seeking team) and `"lfp"` (seeking
players).  `build_title_and_fields` branches on `kind == "lft"`, so every
other tag behaves as `lfp`. -/
inductive Kind
  | lft
  | lfp
deriving DecidableEq, Repr

/-- A validated submission payload.  The modals always construct the dict
with exactly these keys (bot.py lines 195-201 and 271-277), so the payload
is embedded as a sum over the two fixed shapes; the constructor determines
the `kind` string passed alongside the dict in the source. -/
inductive SubmissionData
  | lft (riotId rank roles recentTeams details : String)
  | lfp (teamName rolesNeeded peakRank currentRank benefits : String)
deriving DecidableEq, Repr

/-- The kind tag travelling with a payload. -/
def SubmissionData.kind : SubmissionData → Kind
  | .lft _ _ _ _ _ => .lft
  | .lfp _ _ _ _ _ => .lfp

/-- bot.py lines 89-112, `build_title_and_fields(kind, data)`: the cleaned
title, the ordered field dict (Python dicts preserve insertion order), and
the embed color. -/
def build_title_and_fields : SubmissionData → String × List (String × String) × Nat
  | .lft riotId rank roles recentTeams details =>
    (clean ("LFT " ++ riotId),
      [("Riot ID (with #)", riotId),
       ("Current/Peak Rank", rank),
       ("Roles", roles),
       ("Recent Teams", recentTeams),
       ("Details", details)],
      0x5865F2)
  | .lfp teamName rolesNeeded peakRank currentRank benefits =>
    (clean ("LFP " ++ teamName),
      [("Team Name", teamName),
       ("Roles Needed", rolesNeeded),
       ("Peak Rank", peakRank),
       ("Current Rank", currentRank),
       ("Benefits/Details", benefits)],
      0x57F287)

/-- bot.py line 121: the key of the long-form field used as the embed
description. -/
def longKey : Kind → String
  | .lft => "Details"
  | .lfp => "Benefits/Details"

/-- Python `fields.get(key, "")` on the ordered field list. -/
def lookupField (fields : List (String × String)) (key : String) : String :=
  match fields.find? (fun p => p.1 == key) with
  | some p => p.2
  | none => ""

/-- The rendered embed: title, optional description (the truncated long-form
summary), and the labeled sections in order. -/
structure Embed where
  title : String
  description : Option String
  fields : List (String × String)
deriving DecidableEq, Repr

/-- bot.py lines 120-134: the embed built inside `post_embed` — cleaned
title, the long-form field cleaned to 400 as description (`None` when
empty), and every other non-empty field appended verbatim in declared
order. -/
def render_embed (data : SubmissionData) : Embed :=
  let tfc := build_title_and_fields data
  let lk := longKey data.kind
  let summary := clean (lookupField tfc.2.1 lk) 400
  { title := tfc.1
    description := if summary = "" then none else some summary
    fields := tfc.2.1.filter (fun p => !(p.1 == lk) && !(p.2 == "")) }

/-! ## Python dict operations (association lists with insertion order) -/

/-- Python `d.get(k)` / `d[k]`. -/
def lookupD {α : Type} : List (Nat × α) → Nat → Option α
  | [], _ => none
  | (k1, v1) :: rest, k => if k1 = k then some v1 else lookupD rest k

/-- Python `d[k] = v`: overwrite in place, or append a fresh key. -/
def insertD {α : Type} : List (Nat × α) → Nat → α → List (Nat × α)
  | [], k, v => [(k, v)]
  | (k1, v1) :: rest, k, v =>
    if k1 = k then (k, v) :: rest else (k1, v1) :: insertD rest k v

/-- Python `d.pop(k, None)` (only the resulting dict). -/
def removeD {α : Type} (l : List (Nat × α)) (k : Nat) : List (Nat × α) :=
  l.filter (fun p => !(p.1 == k))

/-! ## World model and bot state -/

/-- Process-wide configuration (env
vars / `/setup`, bot.py lines 29-34), plus the behaviour of the Discord
collaborator during the trace under study: which channel ids
`bot.get_channel` can resolve, and which `msg.delete()` calls raise. -/
structure Config where
  lftChannelId : Nat
  lfpChannelId : Nat
  modQueueChannelId : Nat
  cooldownMinutes : Nat
  postExpiryDays : Nat
  accessible : Nat → Bool
  deleteFails : Nat → Bool

/-- A message existing on the Discord side: the channel it lives in, its id,
and its creation instant (`msg.created_at`, seconds). -/
structure Msg where
  channelId : Nat
  msgId : Nat
  createdAt : Nat
  embed : Embed
deriving DecidableEq, Repr

/-- The in-memory state of bot.py (lines 45-46) together with the observable
world: `lastPostAt` and `activeMessageIds` are the two module-level dicts,
`messages` the currently existing Discord messages, and the remaining
fields are event logs used to count side effects — `published` records each
`channel.send` made by `post_embed`, `deleteAttempts` each `msg.delete()`
call (whether or not it raises), and `dms` each attempted direct message to
a user. -/
structure BotState where
  lastPostAt : List (Nat × Nat)
  activeMessageIds : List (Nat × Nat)
  messages : List Msg
  published : List Nat
  deleteAttempts : List Nat
  dms : List (Nat × String)
  nextMsgId : Nat
deriving DecidableEq, Repr

/-- `bot.get_channel(cid)` resolves a channel: never for id 0 (no Discord
channel has id 0, and a 0 means unconfigured), otherwise per the world
predicate. -/
def get_channel (cfg : Config) (cid : Nat) : Bool :=
  if cid = 0 then false else cfg.accessible cid

/-- The target channel id for a kind (bot.py line 115). -/
def channelFor (cfg : Config) : Kind → Nat
  | .lft => cfg.lftChannelId
  | .lfp => cfg.lfpChannelId

/-- `ch.fetch_message(mid)` in channel `cid`: the first existing message
with that channel and id, `none` when the fetch raises NotFound. -/
def fetch_message (st : BotState) (cid mid : Nat) : Option Msg :=
  st.messages.find? (fun m => m.channelId == cid && m.msgId == mid)

/-- `msg.delete()`: the attempt is always logged; if the world makes this
delete raise, the message survives and the call reports failure. -/
def delete_message (cfg : Config) (st : BotState) (mid : Nat) : Bool × BotState :=
  let st1 := { st with deleteAttempts := st.deleteAttempts ++ [mid] }
  if cfg.deleteFails mid then
    (false, st1)
  else
    (true, { st1 with messages := st1.messages.filter (fun m => !(m.msgId == mid)) })

/-- bot.py lines 76-87: the channel loop of `maybe_delete_previous` — for
each candidate channel id, skip 0 and unresolvable channels, try to fetch
and delete the tracked message, break on success, continue past any
exception. -/
def tryDeleteIn (cfg : Config) (mid : Nat) : BotState → List Nat → BotState
  | st, [] => st
  | st, cid :: rest =>
    if cid = 0 then tryDeleteIn cfg mid st rest
    else if get_channel cfg cid then
      match fetch_message st cid mid with
      | some _ =>
        let r := delete_message cfg st mid
        if r.1 then r.2 else tryDeleteIn cfg mid r.2 rest
      | none => tryDeleteIn cfg mid st rest
    else tryDeleteIn cfg mid st rest

/-- bot.py lines 72-87, `maybe_delete_previous(user_id)`: nothing to do
without a truthy tracked message id, otherwise run the channel loop over
the LFT then the LFP channel. -/
def maybe_delete_previous (cfg : Config) (st : BotState) (userId : Nat) : BotState :=
  match lookupD st.activeMessageIds userId with
  | none => st
  | some mid =>
    if mid = 0 then st
    else tryDeleteIn cfg mid st [cfg.lftChannelId, cfg.lfpChannelId]

/-- bot.py lines 65-67, `mark_post(user_id, message_id)` at instant `now`. -/
def mark_post (st : BotState) (userId msgId now : Nat) : BotState :=
  { st with
    lastPostAt := insertD st.lastPostAt userId now
    activeMessageIds := insertD st.activeMessageIds userId msgId }

/-- bot.py lines 69-70, `clear_cooldown(user_id)`. -/
def clear_cooldown (st : BotState) (userId : Nat) : BotState :=
  { st with lastPostAt := removeD st.lastPostAt userId }

/-- bot.py lines 55-63, `cooldown_ok(user_id)` at instant `now`: the boolean
verdict together with the minute count interpolated into the
"Try again in about N minutes" message (0 when allowed).  `secs` is the
integer number of remaining seconds and the displayed count is
`max(1, secs // 60)`. -/
def cooldown_ok (cfg : Config) (st : BotState) (userId now : Nat) : Bool × Nat :=
  match lookupD st.lastPostAt userId with
  | none => (true, 0)
  | some last =>
    if now - last < cfg.cooldownMinutes * 60 then
      let secs := cfg.cooldownMinutes * 60 - (now - last)
      (false, max 1 (secs / 60))
    else (true, 0)

/-- bot.py lines 114-148, `post_embed(kind, author_id, data)` on the state:
resolve the target channel (raising the RuntimeError of line 118 when it
does not resolve), then send the rendered embed as a fresh message and log
the publish.  Thread creation (lines 144-147) is best-effort and leaves the
modelled state unchanged. -/
def post_embed (cfg : Config) (st : BotState) (kind : Kind) (data : SubmissionData)
    (now : Nat) : Except String (Nat × BotState) :=
  let cid := channelFor cfg kind
  if get_channel cfg cid then
    let mid := st.nextMsgId
    .ok (mid,
      { st with
        messages := st.messages ++
          [{ channelId := cid, msgId := mid, createdAt := now, embed := render_embed data }]
        published := st.published ++ [mid]
        nextMsgId := st.nextMsgId + 1 })
  else
    .error "Target channel not configured. Use /setup or set env IDs."

/-- The publish pipeline shared by the direct submission path (bot.py lines
223-225) and the approval path (lines 374-376): `maybe_delete_previous`,
then `post_embed`, then `mark_post`.  On a `post_embed` error the state
already mutated by `maybe_delete_previous` is carried in the error. -/
def publish_flow (cfg : Config) (st : BotState) (kind : Kind) (userId : Nat)
    (data : SubmissionData) (now : Nat) : Except (String × BotState) (Nat × BotState) :=
  let st1 := maybe_delete_previous cfg st userId
  match post_embed cfg st1 kind data now with
  | .error e => .error (e, st1)
  | .ok (mid, st2) => .ok (mid, mark_post st2 userId mid now)

/-- A pending moderation ticket: the `ApprovalView` fields (bot.py lines
360-366). -/
structure Ticket where
  kind : Kind
  authorId : Nat
  payload : SubmissionData
  queueChannelId : Nat
  queueMessageId : Nat
deriving DecidableEq, Repr

/-- The outcome reported to the acting moderator by the Approve button. -/
inductive ApproveResult
  | noPermission
  | approved (mid : Nat)
  | errorMsg (e : String)
deriving DecidableEq, Repr

/-- bot.py lines 368-405, `ApprovalView.approve`: gate on the
`manage_messages` capability, then run the publish pipeline for the ticket
payload; on success attempt the author DM (logged) — the queue-channel ping
and the best-effort removal of the buttons from the queue message (lines
386-397) do not touch the modelled state.  There is no check whether the
same ticket was already approved. -/
def approve (cfg : Config) (t : Ticket) (hasPerm : Bool) (st : BotState)
    (now : Nat) : ApproveResult × BotState :=
  if hasPerm then
    match publish_flow cfg st t.kind t.authorId t.payload now with
    | .error (e, st1) => (.errorMsg e, st1)
    | .ok (mid, st2) =>
      (.approved mid,
        { st2 with dms := st2.dms ++ [(t.authorId, "approved")] })
  else (.noPermission, st)

/-- bot.py lines 328-356, `RejectReasonModal.on_submit`: clear the cooldown
of the ticket author, then attempt the author DM with the reason
(defaulting when empty). -/
def reject (t : Ticket) (reason : String) (st : BotState) : BotState :=
  let st1 := clear_cooldown st t.authorId
  let r := if reason = "" then "No reason provided." else reason
  { st1 with dms := st1.dms ++ [(t.authorId, "rejected: " ++ r)] }

/-! ## Expiry sweep -/

/-- bot.py lines 511-525: the inner channel loop of one registry entry in
`expire_loop` — skip id 0 and unresolvable channels; on a successful fetch,
delete the message when strictly older than the expiry window and break,
continuing past any exception (a failed delete falls through to the next
channel and the entry is not collected).  Returns whether the entry was
expired together with the state. -/
def expireEntryChans (cfg : Config) (now mid : Nat) : BotState → List Nat → Bool × BotState
  | st, [] => (false, st)
  | st, cid :: rest =>
    if cid = 0 then expireEntryChans cfg now mid st rest
    else if get_channel cfg cid then
      match fetch_message st cid mid with
      | some m =>
        if cfg.postExpiryDays * 86400 < now - m.createdAt then
          let r := delete_message cfg st mid
          if r.1 then (true, r.2) else expireEntryChans cfg now mid r.2 rest
        else expireEntryChans cfg now mid st rest
      | none => expireEntryChans cfg now mid st rest
    else expireEntryChans cfg now mid st rest

/-- bot.py lines 509-525: the scan over `list(active_message_ids.items())`,
collecting (in order) the users whose post the sweep deleted. -/
def expireScan (cfg : Config) (now : Nat) : List (Nat × Nat) → BotState → List Nat × BotState
  | [], st => ([], st)
  | (uid, mid) :: rest, st =>
    let r := expireEntryChans cfg now mid st [cfg.lftChannelId, cfg.lfpChannelId]
    let rr := expireScan cfg now rest r.2
    (if r.1 then uid :: rr.1 else rr.1, rr.2)

/-- bot.py lines 504-530: one iteration of `expire_loop` — scan the
snapshot of the registry, then pop every collected user. -/
def expireSweep (cfg : Config) (st : BotState) (now : Nat) : BotState :=
  let r := expireScan cfg now st.activeMessageIds st
  r.1.foldl (fun s uid => { s with activeMessageIds := removeD s.activeMessageIds uid }) r.2

/-! ## Dictionary lemmas -/

theorem lookupD_insertD_self {α : Type} (l : List (Nat × α)) (k : Nat) (v : α) :
    lookupD (insertD l k v) k = some v := by
  induction l with
  | nil => simp [insertD, lookupD]
  | cons p rest ih =>
    obtain ⟨k1, v1⟩ := p
    by_cases h : k1 = k
    · simp [insertD, h, lookupD]
    · simp [insertD, h, lookupD, ih]

theorem lookupD_removeD_self {α : Type} (l : List (Nat × α)) (k : Nat) :
    lookupD (removeD l k) k = none := by
  induction l with
  | nil => simp [removeD, lookupD]
  | cons p rest ih =>
    obtain ⟨k1, v1⟩ := p
    by_cases h : k1 = k
    · simpa [removeD, h] using ih
    · simpa [removeD, h, lookupD] using ih

theorem lookupD_removeD_ne {α : Type} (l : List (Nat × α)) (k1 k2 : Nat) (h : k1 ≠ k2) :
    lookupD (removeD l k2) k1 = lookupD l k1 := by
  induction l with
  | nil => simp [removeD, lookupD]
  | cons p rest ih =>
    obtain ⟨kh, vh⟩ := p
    by_cases hh : kh = k2
    · have h1 : removeD ((kh, vh) :: rest) k2 = removeD rest k2 := by
        simp [removeD, hh]
      have h2 : lookupD ((kh, vh) :: rest) k1 = lookupD rest k1 := by
        have hne : kh ≠ k1 := by rw [hh]; exact Ne.symm h
        simp [lookupD, hne]
      rw [h1, h2, ih]
    · have h1 : removeD ((kh, vh) :: rest) k2 = (kh, vh) :: removeD rest k2 := by
        simp [removeD, hh]
      rw [h1]
      by_cases hk : kh = k1
      · simp [lookupD, hk]
      · simp [lookupD, hk, ih]

/-! ## C2 — title contract -/

/-- Claim C2: rendering a title keeps the exact `"{KindTag} {PrimaryIdentifier}"`
shape whenever that string is already whitespace-normal and within the
300-character limit of `clean`; in particular (witness) a SeekingTeam
submission with Riot ID `Foo#NA1` is titled exactly `LFT Foo#NA1` and a
SeekingPlayers submission with team name `Nova` exactly `LFP Nova`. -/
theorem title_contract (riot r1 r2 r3 r4 team p1 p2 p3 p4 : String)
    (hn1 : normalizeWs ("LFT " ++ riot).data = ("LFT " ++ riot).data)
    (hl1 : ("LFT " ++ riot).data.length ≤ 300)
    (hn2 : normalizeWs ("LFP " ++ team).data = ("LFP " ++ team).data)
    (hl2 : ("LFP " ++ team).data.length ≤ 300) :
    (build_title_and_fields (.lft riot r1 r2 r3 r4)).1 = "LFT " ++ riot ∧
    (build_title_and_fields (.lfp team p1 p2 p3 p4)).1 = "LFP " ++ team := by
  constructor
  · show clean ("LFT " ++ riot) = "LFT " ++ riot
    simp only [clean, cleanL, hn1]
    rw [if_neg (by omega)]
  · show clean ("LFP " ++ team) = "LFP " ++ team
    simp only [clean, cleanL, hn2]
    rw [if_neg (by omega)]

/-- Claim C2 witness: the two concrete title examples. -/
theorem title_contract_witness :
    (build_title_and_fields (.lft "Foo#NA1" "" "" "" "")).1 = "LFT Foo#NA1" ∧
    (build_title_and_fields (.lfp "Nova" "" "" "" "")).1 = "LFP Nova" := by
  have h := title_contract "Foo#NA1" "" "" "" "" "Nova" "" "" "" ""
    (by decide) (by decide) (by decide) (by decide)
  exact ⟨h.1.trans (by decide), h.2.trans (by decide)⟩

/-! ## C3 — long-form truncation (mojibake makes the total 402) -/

set_option maxRecDepth 8000 in
/-- Claim C3: on a `Details` field of 450 characters the rendered summary is the
first 399 characters followed by the 3-character mojibake ellipsis literal,
for a total length of 402 — not the single-character marker and total of
exactly 400 that the claim states. -/
theorem truncation_renders_402 :
    (render_embed (.lft "x" "" "" "" ⟨List.replicate 450 'a'⟩)).description
        = some ⟨List.replicate 399 'a' ++ ellipsisLit⟩ ∧
    (String.mk (List.replicate 399 'a' ++ ellipsisLit)).length = 402 := by
  constructor
  · decide
  · decide

/-! ## C10 — title length cap (mojibake makes it 302, not 300) -/

set_option maxRecDepth 8000 in
/-- Claim C10: a 400-character Riot ID produces a title of length 302 — the first
299 characters of the normalized `LFT ...` string followed by the
3-character mojibake ellipsis literal — exceeding the 300-character cap the
claim states. -/
theorem long_title_renders_302 :
    (render_embed (.lft ⟨List.replicate 400 'a'⟩ "" "" "" "")).title.length = 302 ∧
    (render_embed (.lft ⟨List.replicate 400 'a'⟩ "" "" "" "")).title
      = ⟨("LFT ".data ++ List.replicate 295 'a') ++ ellipsisLit⟩ := by
  constructor
  · decide
  · decide

/-! ## C7 — only the title and summary are whitespace-normalized -/

/-- Claim C7 counterexample: the `Current/Peak Rank` field value `"  a  b "` is
rendered into the published embed verbatim, though `clean` of it differs —
refuting the claim that every rendered text field is collapsed and
trimmed. -/
theorem fields_rendered_raw_cex :
    (("Current/Peak Rank", "  a  b ") ∈
      (render_embed (.lft "x" "  a  b " "r" "" "")).fields) ∧
    clean "  a  b " ≠ "  a  b " := by
  constructor
  · decide
  · decide

/-- Claim C7 amended: the labeled sections of the rendered embed are exactly the
non-empty payload fields other than the long-form one, carried verbatim
(no whitespace normalization); only the title and the long-form summary go
through `clean`. -/
theorem embed_fields_verbatim (data : SubmissionData) (k v : String) :
    (k, v) ∈ (render_embed data).fields ↔
      ((k, v) ∈ (build_title_and_fields data).2.1 ∧
        k ≠ longKey data.kind ∧ v ≠ "") := by
  simp [render_embed, List.mem_filter]

/-! ## C4 — cooldown law (code reports floor, not ceiling) -/

/-- Claim C4 counterexample: with a 10-minute window and 510 seconds elapsed, 90
seconds remain; the code reports `max 1 (90 / 60) = 1` minute while the
ceiling of the residual window at one-minute granularity is 2. -/
theorem cooldown_reports_floor_cex :
    cooldown_ok
      { lftChannelId := 1, lfpChannelId := 2, modQueueChannelId := 0,
        cooldownMinutes := 10, postExpiryDays := 7,
        accessible := fun _ => true, deleteFails := fun _ => false }
      { lastPostAt := [(7, 0)], activeMessageIds := [], messages := [],
        published := [], deleteAttempts := [], dms := [], nextMsgId := 1 }
      7 510 = (false, 1) ∧
    (10 * 60 - 510 + 59) / 60 = 2 ∧ (1 : Nat) ≠ 2 := by
  refine ⟨by decide, by decide, by decide⟩

/-- Claim C4 amended: after `mark_post` for user `u` at instant `t`, a check
strictly before `t + window` is blocked with a positive reported minute
count equal to the floor of the remaining seconds over 60, clamped below at
1 (not the ceiling); a check at or after `t + window` is allowed. -/
theorem cooldown_law_floor (cfg : Config) (st : BotState) (u mid t now : Nat)
    (ht : t ≤ now) :
    (now < t + cfg.cooldownMinutes * 60 →
      cooldown_ok cfg (mark_post st u mid t) u now
        = (false, max 1 ((cfg.cooldownMinutes * 60 - (now - t)) / 60)) ∧
      0 < max 1 ((cfg.cooldownMinutes * 60 - (now - t)) / 60)) ∧
    (t + cfg.cooldownMinutes * 60 ≤ now →
      (cooldown_ok cfg (mark_post st u mid t) u now).1 = true) := by
  have hl : lookupD (mark_post st u mid t).lastPostAt u = some t := by
    simp [mark_post, lookupD_insertD_self]
  constructor
  · intro hlt
    have hcond : now - t < cfg.cooldownMinutes * 60 := by omega
    refine ⟨?_, ?_⟩
    · simp [cooldown_ok, hl, hcond]
    · exact lt_of_lt_of_le one_pos (le_max_left _ _)
  · intro hge
    have hcond : ¬ (now - t < cfg.cooldownMinutes * 60) := by omega
    simp [cooldown_ok, hl, hcond]

/-- Claim C4 witness: concrete instantiation of the amended cooldown law. -/
theorem cooldown_law_floor_witness :
    (cooldown_ok
        { lftChannelId := 1, lfpChannelId := 2, modQueueChannelId := 0,
          cooldownMinutes := 10, postExpiryDays := 7,
          accessible := fun _ => true, deleteFails := fun _ => false }
        (mark_post
          { lastPostAt := [], activeMessageIds := [], messages := [],
            published := [], deleteAttempts := [], dms := [], nextMsgId := 1 }
          7 42 100)
        7 610 = (false, max 1 ((10 * 60 - (610 - 100)) / 60))) ∧
    (cooldown_ok
        { lftChannelId := 1, lfpChannelId := 2, modQueueChannelId := 0,
          cooldownMinutes := 10, postExpiryDays := 7,
          accessible := fun _ => true, deleteFails := fun _ => false }
        (mark_post
          { lastPostAt := [], activeMessageIds := [], messages := [],
            published := [], deleteAttempts := [], dms := [], nextMsgId := 1 }
          7 42 100)
        7 700).1 = true := by
  have h := cooldown_law_floor
    { lftChannelId := 1, lfpChannelId := 2, modQueueChannelId := 0,
      cooldownMinutes := 10, postExpiryDays := 7,
      accessible := fun _ => true, deleteFails := fun _ => false }
    { lastPostAt := [], activeMessageIds := [], messages := [],
      published := [], deleteAttempts := [], dms := [], nextMsgId := 1 }
    7 42 100 610 (by omega)
  have h2 := cooldown_law_floor
    { lftChannelId := 1, lfpChannelId := 2, modQueueChannelId := 0,
      cooldownMinutes := 10, postExpiryDays := 7,
      accessible := fun _ => true, deleteFails := fun _ => false }
    { lastPostAt := [], activeMessageIds := [], messages := [],
      published := [], deleteAttempts := [], dms := [], nextMsgId := 1 }
    7 42 100 700 (by omega)
  exact ⟨(h.1 (by decide)).1, h2.2 (by decide)⟩

/-! ## C8 — rejection clears the cooldown -/

set_option linter.unusedVariables false in
/-- Claim C8: when a user is blocked by the cooldown and their pending ticket is
rejected, the cooldown record is cleared, so any subsequent check returns
Allowed. -/
theorem reject_clears_cooldown (cfg : Config) (t : Ticket) (reason : String)
    (st : BotState) (now now2 : Nat)
    (hblocked : (cooldown_ok cfg st t.authorId now).1 = false) :
    (cooldown_ok cfg (reject t reason st) t.authorId now2).1 = true := by
  have hnone : lookupD (reject t reason st).lastPostAt t.authorId = none := by
    simp [reject, clear_cooldown, lookupD_removeD_self]
  simp [cooldown_ok, hnone]

/-- Claim C8 witness: a concrete blocked user is allowed immediately after the
rejection of their ticket. -/
theorem reject_clears_cooldown_witness :
    ((cooldown_ok
        { lftChannelId := 1, lfpChannelId := 2, modQueueChannelId := 9,
          cooldownMinutes := 10, postExpiryDays := 7,
          accessible := fun _ => true, deleteFails := fun _ => false }
        { lastPostAt := [(5, 0)], activeMessageIds := [], messages := [],
          published := [], deleteAttempts := [], dms := [], nextMsgId := 1 }
        5 30).1 = false) ∧
    ((cooldown_ok
        { lftChannelId := 1, lfpChannelId := 2, modQueueChannelId := 9,
          cooldownMinutes := 10, postExpiryDays := 7,
          accessible := fun _ => true, deleteFails := fun _ => false }
        (reject
          { kind := .lft, authorId := 5, payload := .lft "a" "b" "c" "d" "e",
            queueChannelId := 9, queueMessageId := 3 }
          ""
          { lastPostAt := [(5, 0)], activeMessageIds := [], messages := [],
            published := [], deleteAttempts := [], dms := [], nextMsgId := 1 })
        5 31).1 = true) := by
  refine ⟨by decide, ?_⟩
  exact reject_clears_cooldown _ _ "" _ 30 31 (by decide)

/-! ## Preservation lemmas: the delete-previous step never touches the
dictionaries, the publish log, the DM log or the id counter -/

/-- The state components that `maybe_delete_previous` can never change:
both dictionaries, the publish log, the DM log and the message id
counter. -/
def SameCore (s t : BotState) : Prop :=
  s.lastPostAt = t.lastPostAt ∧ s.activeMessageIds = t.activeMessageIds ∧
  s.published = t.published ∧ s.dms = t.dms ∧ s.nextMsgId = t.nextMsgId

theorem sameCore_refl (s : BotState) : SameCore s s :=
  ⟨rfl, rfl, rfl, rfl, rfl⟩

theorem sameCore_trans {a b c : BotState} (h1 : SameCore a b) (h2 : SameCore b c) :
    SameCore a c := by
  obtain ⟨x1, x2, x3, x4, x5⟩ := h1
  obtain ⟨y1, y2, y3, y4, y5⟩ := h2
  exact ⟨x1.trans y1, x2.trans y2, x3.trans y3, x4.trans y4, x5.trans y5⟩

theorem delete_message_sameCore (cfg : Config) (st : BotState) (mid : Nat) :
    SameCore (delete_message cfg st mid).2 st := by
  simp only [delete_message]
  split <;> exact ⟨rfl, rfl, rfl, rfl, rfl⟩

theorem tryDeleteIn_sameCore (cfg : Config) (mid : Nat) (chans : List Nat)
    (st : BotState) : SameCore (tryDeleteIn cfg mid st chans) st := by
  induction chans generalizing st with
  | nil => exact sameCore_refl st
  | cons cid rest ih =>
    simp only [tryDeleteIn]
    by_cases h0 : cid = 0
    · simpa [h0] using ih st
    · rw [if_neg h0]
      by_cases hg : get_channel cfg cid
      · rw [if_pos hg]
        cases hf : fetch_message st cid mid with
        | none => simpa using ih st
        | some m =>
          simp only []
          by_cases hd : (delete_message cfg st mid).1
          · simpa [hd] using delete_message_sameCore cfg st mid
          · simp only [hd, if_false]
            exact sameCore_trans (ih _) (delete_message_sameCore cfg st mid)
      · simpa [hg] using ih st

theorem maybe_delete_sameCore (cfg : Config) (st : BotState) (userId : Nat) :
    SameCore (maybe_delete_previous cfg st userId) st := by
  unfold maybe_delete_previous
  cases lookupD st.activeMessageIds userId with
  | none => exact sameCore_refl st
  | some mid =>
    simp only []
    by_cases h0 : mid = 0
    · simpa [h0] using sameCore_refl st
    · simpa [h0] using tryDeleteIn_sameCore cfg mid _ st

/-! ## C6 — configuration error: no dictionary mutation, but the previous
post can already be gone -/

/-- Demo world for the configuration-error scenario: only the LFT channel
(id 1) resolves; the LFP channel id 2 is configured but inaccessible. -/
def c6Config : Config :=
  { lftChannelId := 1, lfpChannelId := 2, modQueueChannelId := 0,
    cooldownMinutes := 10, postExpiryDays := 7,
    accessible := fun cid => cid == 1, deleteFails := fun _ => false }

/-- A minimal embed for pre-existing messages in demo states. -/
def blankEmbed : Embed :=
  { title := "", description := none, fields := [] }

/-- Demo state: user 5 has an active post, message 77 in channel 1. -/
def c6State : BotState :=
  { lastPostAt := [(5, 0)], activeMessageIds := [(5, 77)],
    messages := [{ channelId := 1, msgId := 77, createdAt := 0, embed := blankEmbed }],
    published := [77], deleteAttempts := [], dms := [], nextMsgId := 78 }

/-- Claim C6 counterexample: with the LFP target channel inaccessible, publishing
an LFP submission for user 5 fails with the configuration error — yet the
previous post (message 77) has already been deleted by the
delete-previous step, refuting the claim that no deletion of the previous
post happens on a failed publish. -/
theorem config_error_still_deletes_cex :
    (publish_flow c6Config c6State .lfp 5 (.lfp "Nova" "" "" "" "") 100 =
      .error ("Target channel not configured. Use /setup or set env IDs.",
              maybe_delete_previous c6Config c6State 5)) ∧
    ((maybe_delete_previous c6Config c6State 5).deleteAttempts = [77]) ∧
    (fetch_message (maybe_delete_previous c6Config c6State 5) 1 77 = none) := by
  refine ⟨by rfl, by decide, by decide⟩

/-- Claim C6 amended: when the target channel for the kind does not resolve,
publish fails with the configuration error and no new post is created, no
cooldown record is written and the registry entry is unchanged (the core
state is untouched); publish can fail at no later step (an accessible
channel always yields a post handle).  However the previous post of the
author may already have been deleted, because the delete-previous step
runs before channel resolution. -/
theorem config_error_no_mutation (cfg : Config) (st : BotState) (k : Kind)
    (u : Nat) (d : SubmissionData) (now : Nat) :
    (get_channel cfg (channelFor cfg k) = false →
      publish_flow cfg st k u d now =
        .error ("Target channel not configured. Use /setup or set env IDs.",
                maybe_delete_previous cfg st u) ∧
      SameCore (maybe_delete_previous cfg st u) st) ∧
    (get_channel cfg (channelFor cfg k) = true →
      ∃ st2, publish_flow cfg st k u d now = .ok (st.nextMsgId, st2)) := by
  constructor
  · intro hch
    refine ⟨?_, maybe_delete_sameCore cfg st u⟩
    simp [publish_flow, post_embed, hch]
  · intro hch
    obtain ⟨_, _, _, _, hnid⟩ := maybe_delete_sameCore cfg st u
    simp only [publish_flow, post_embed, hch, if_true]
    rw [hnid]
    exact ⟨_, rfl⟩

/-- Claim C6 witness: the two branches of the amended statement at concrete
inputs — an inaccessible LFP target fails without core-state mutation, an
accessible LFT target publishes. -/
theorem config_error_no_mutation_witness :
    ((publish_flow c6Config c6State .lfp 5 (.lfp "Nova" "" "" "" "") 100 =
        .error ("Target channel not configured. Use /setup or set env IDs.",
                maybe_delete_previous c6Config c6State 5)) ∧
      SameCore (maybe_delete_previous c6Config c6State 5) c6State) ∧
    (∃ st2, publish_flow c6Config c6State .lft 5 (.lft "x" "" "" "" "") 100 =
        .ok (c6State.nextMsgId, st2)) :=
  ⟨(config_error_no_mutation c6Config c6State .lfp 5 (.lfp "Nova" "" "" "" "") 100).1
      (by decide),
   (config_error_no_mutation c6Config c6State .lft 5 (.lft "x" "" "" "" "") 100).2
      (by decide)⟩

/-! ## C1 — approve has no idempotency guard -/

theorem mark_post_core (st : BotState) (u mid now : Nat) :
    (mark_post st u mid now).published = st.published ∧
    (mark_post st u mid now).dms = st.dms ∧
    (mark_post st u mid now).nextMsgId = st.nextMsgId := by
  exact ⟨rfl, rfl, rfl⟩

/-- With the moderation capability and an accessible target channel, one
Approve click publishes exactly once (the fresh message id), attempts
exactly one author DM, and bumps the id counter. -/
theorem approve_effects (cfg : Config) (t : Ticket) (st : BotState) (now : Nat)
    (hch : get_channel cfg (channelFor cfg t.kind) = true) :
    (approve cfg t true st now).1 = .approved st.nextMsgId ∧
    (approve cfg t true st now).2.published = st.published ++ [st.nextMsgId] ∧
    (approve cfg t true st now).2.dms = st.dms ++ [(t.authorId, "approved")] ∧
    (approve cfg t true st now).2.nextMsgId = st.nextMsgId + 1 := by
  obtain ⟨hlp, ham, hpub, hdms, hnid⟩ := maybe_delete_sameCore cfg st t.authorId
  simp only [approve, publish_flow, post_embed, hch, if_true]
  refine ⟨by rw [hnid], ?_, ?_, ?_⟩
  · simp [mark_post, hpub, hnid]
  · simp [mark_post, hdms]
  · simp [mark_post, hnid]

/-- Claim C1 amended: a moderator invoking Approve twice on the same pending
ticket (with the target channel accessible) performs TWO publishes and TWO
author-notification attempts; there is no idempotency guard, so the second
invocation never observes an already-handled outcome — it completes a full
second approval.  The only mitigation in the source is the best-effort
removal of the buttons from the queue message after the first approval. -/
theorem approve_twice_no_guard (cfg : Config) (t : Ticket) (st : BotState)
    (now1 now2 : Nat) (hch : get_channel cfg (channelFor cfg t.kind) = true) :
    ((approve cfg t true ((approve cfg t true st now1).2) now2).2.published.length
        = st.published.length + 2) ∧
    ((approve cfg t true ((approve cfg t true st now1).2) now2).2.dms.length
        = st.dms.length + 2) ∧
    ((approve cfg t true ((approve cfg t true st now1).2) now2).1
        = .approved (st.nextMsgId + 1)) := by
  obtain ⟨h1r, h1p, h1d, h1n⟩ := approve_effects cfg t st now1 hch
  obtain ⟨h2r, h2p, h2d, h2n⟩ :=
    approve_effects cfg t ((approve cfg t true st now1).2) now2 hch
  refine ⟨?_, ?_, ?_⟩
  · rw [h2p, h1p]; simp
  · rw [h2d, h1d]; simp
  · rw [h2r, h1n]

/-- Demo ticket for the approval scenarios. -/
def demoTicket : Ticket :=
  { kind := .lft, authorId := 5, payload := .lft "Foo#NA1" "Asc" "Duelist" "" "",
    queueChannelId := 9, queueMessageId := 77 }

/-- Demo configuration with both target channels and the queue channel
accessible and no failing deletes. -/
def demoConfig : Config :=
  { lftChannelId := 1, lfpChannelId := 2, modQueueChannelId := 9,
    cooldownMinutes := 10, postExpiryDays := 7,
    accessible := fun cid => cid == 1 || cid == 2 || cid == 9,
    deleteFails := fun _ => false }

/-- The empty bot state right after startup. -/
def emptyState : BotState :=
  { lastPostAt := [], activeMessageIds := [], messages := [],
    published := [], deleteAttempts := [], dms := [], nextMsgId := 1 }

/-- Claim C1 counterexample: approving the same pending ticket twice from the
startup state publishes twice (messages 1 and 2) and attempts two author
DMs; the second invocation reports a full approval, not an already-handled
no-op — refuting the claimed exactly-one-publish idempotency. -/
theorem approve_twice_cex :
    ((approve demoConfig demoTicket true
        ((approve demoConfig demoTicket true emptyState 0).2) 60).2.published = [1, 2]) ∧
    ¬((approve demoConfig demoTicket true
        ((approve demoConfig demoTicket true emptyState 0).2) 60).2.published.length = 1) ∧
    ((approve demoConfig demoTicket true
        ((approve demoConfig demoTicket true emptyState 0).2) 60).2.dms.length = 2) ∧
    ((approve demoConfig demoTicket true
        ((approve demoConfig demoTicket true emptyState 0).2) 60).1
      = ApproveResult.approved 2) := by
  refine ⟨by decide, by decide, by decide, by decide⟩

/-- Claim C1 witness: the amended double-approval account at concrete inputs. -/
theorem approve_twice_no_guard_witness :
    ((approve demoConfig demoTicket true
        ((approve demoConfig demoTicket true emptyState 0).2) 60).2.published.length
      = emptyState.published.length + 2) ∧
    ((approve demoConfig demoTicket true
        ((approve demoConfig demoTicket true emptyState 0).2) 60).2.dms.length
      = emptyState.dms.length + 2) ∧
    ((approve demoConfig demoTicket true
        ((approve demoConfig demoTicket true emptyState 0).2) 60).1
      = .approved (emptyState.nextMsgId + 1)) :=
  approve_twice_no_guard demoConfig demoTicket emptyState 0 60 (by decide)

/-! ## C5 — supersession -/

/-- When some candidate channel resolves and holds the tracked message, and
deleting it does not raise, the channel loop deletes exactly that message
and logs exactly one delete attempt. -/
theorem tryDeleteIn_hit (cfg : Config) (mid : Nat) (chans : List Nat) (st : BotState)
    (hdf : cfg.deleteFails mid = false)
    (hex : ∃ cid ∈ chans, get_channel cfg cid = true ∧
        (fetch_message st cid mid).isSome) :
    tryDeleteIn cfg mid st chans =
      { st with
        deleteAttempts := st.deleteAttempts ++ [mid]
        messages := st.messages.filter (fun m => !(m.msgId == mid)) } := by
  induction chans with
  | nil => simp at hex
  | cons cid rest ih =>
    obtain ⟨c, hc, hg, hf⟩ := hex
    simp only [tryDeleteIn]
    by_cases h0 : cid = 0
    · rw [if_pos h0]
      apply ih
      rcases List.mem_cons.mp hc with rfl | hrest
      · rw [h0] at hg
        simp [get_channel] at hg
      · exact ⟨c, hrest, hg, hf⟩
    · rw [if_neg h0]
      by_cases hgc : get_channel cfg cid = true
      · rw [if_pos hgc]
        cases hfm : fetch_message st cid mid with
        | some m => simp [delete_message, hdf]
        | none =>
          simp only []
          apply ih
          rcases List.mem_cons.mp hc with rfl | hrest
          · rw [hfm] at hf
            simp at hf
          · exact ⟨c, hrest, hg, hf⟩
      · rw [if_neg hgc]
        apply ih
        rcases List.mem_cons.mp hc with rfl | hrest
        · exact absurd hg hgc
        · exact ⟨c, hrest, hg, hf⟩

/-- `maybe_delete_previous` under the same conditions: the tracked previous
message of the user is deleted and one attempt is logged. -/
theorem maybe_delete_hit (cfg : Config) (st : BotState) (u mid : Nat)
    (hlook : lookupD st.activeMessageIds u = some mid) (h0 : mid ≠ 0)
    (hdf : cfg.deleteFails mid = false)
    (hex : ∃ cid ∈ [cfg.lftChannelId, cfg.lfpChannelId],
        get_channel cfg cid = true ∧ (fetch_message st cid mid).isSome) :
    maybe_delete_previous cfg st u =
      { st with
        deleteAttempts := st.deleteAttempts ++ [mid]
        messages := st.messages.filter (fun m => !(m.msgId == mid)) } := by
  unfold maybe_delete_previous
  rw [hlook]
  simp only [h0, if_false]
  exact tryDeleteIn_hit cfg mid _ st hdf hex

/-- A successful publish: the handle is the fresh message id, the registry
maps the author to it, the new message is appended to the target channel
after the delete-previous step, no delete attempt is added after that step,
and the publish log grows by exactly this id. -/
theorem publish_flow_ok_spec (cfg : Config) (st : BotState) (k : Kind) (u : Nat)
    (d : SubmissionData) (now : Nat)
    (hch : get_channel cfg (channelFor cfg k) = true) :
    ∃ st2,
      publish_flow cfg st k u d now = .ok (st.nextMsgId, st2) ∧
      st2.nextMsgId = st.nextMsgId + 1 ∧
      lookupD st2.activeMessageIds u = some st.nextMsgId ∧
      st2.messages = (maybe_delete_previous cfg st u).messages ++
        [{ channelId := channelFor cfg k, msgId := st.nextMsgId, createdAt := now,
           embed := render_embed d }] ∧
      st2.deleteAttempts = (maybe_delete_previous cfg st u).deleteAttempts ∧
      st2.published = st.published ++ [st.nextMsgId] := by
  obtain ⟨hlp, ham, hpub, hdms, hnid⟩ := maybe_delete_sameCore cfg st u
  simp only [publish_flow, post_embed, hch, if_true]
  rw [hnid]
  refine ⟨_, rfl, rfl, ?_, rfl, rfl, ?_⟩
  · simp [mark_post, lookupD_insertD_self]
  · simp [mark_post, hpub]

/-- Claim C5: a user who publishes A and then B ends with the registry mapping
them to B only; the second publish makes exactly one delete attempt, on A,
before registering B, and B is a fresh handle distinct from A. -/
theorem supersession (cfg : Config) (st : BotState) (u : Nat) (k1 k2 : Kind)
    (d1 d2 : SubmissionData) (t1 t2 : Nat)
    (hch1 : get_channel cfg (channelFor cfg k1) = true)
    (hch2 : get_channel cfg (channelFor cfg k2) = true)
    (hdf : ∀ mid, cfg.deleteFails mid = false)
    (hpos : 0 < st.nextMsgId) :
    ∃ a stA b stB,
      publish_flow cfg st k1 u d1 t1 = .ok (a, stA) ∧
      publish_flow cfg stA k2 u d2 t2 = .ok (b, stB) ∧
      a ≠ b ∧
      lookupD stB.activeMessageIds u = some b ∧
      stB.deleteAttempts = stA.deleteAttempts ++ [a] := by
  obtain ⟨stA, hA, hAn, hAl, hAm, hAd, hAp⟩ := publish_flow_ok_spec cfg st k1 u d1 t1 hch1
  have hex : ∃ cid ∈ [cfg.lftChannelId, cfg.lfpChannelId],
      get_channel cfg cid = true ∧ (fetch_message stA cid st.nextMsgId).isSome := by
    refine ⟨channelFor cfg k1, ?_, hch1, ?_⟩
    · cases k1 <;> simp [channelFor]
    · rw [fetch_message, hAm, List.find?_isSome]
      exact ⟨_, List.mem_append_right _ (List.mem_singleton_self _), by simp⟩
  have hmd := maybe_delete_hit cfg stA u st.nextMsgId hAl (by omega) (hdf _) hex
  obtain ⟨stB, hB, hBn, hBl, hBm, hBd, hBp⟩ := publish_flow_ok_spec cfg stA k2 u d2 t2 hch2
  refine ⟨st.nextMsgId, stA, stA.nextMsgId, stB, hA, hB, by omega, hBl, ?_⟩
  rw [hBd, hmd]

/-- Claim C5 witness: publishing twice from the startup state produces handles 1
then 2, with the registry ending at 2 and exactly the one delete attempt on
message 1 during the second publish. -/
theorem supersession_witness :
    ∃ a stA b stB,
      publish_flow demoConfig emptyState .lft 5 (.lft "x" "" "" "" "") 0 = .ok (a, stA) ∧
      publish_flow demoConfig stA .lft 5 (.lft "y" "" "" "" "") 700 = .ok (b, stB) ∧
      a ≠ b ∧
      lookupD stB.activeMessageIds 5 = some b ∧
      stB.deleteAttempts = stA.deleteAttempts ++ [a] :=
  supersession demoConfig emptyState 5 .lft .lft (.lft "x" "" "" "" "")
    (.lft "y" "" "" "" "") 0 700 (by decide) (by decide) (fun _ => rfl) (by decide)

/-! ## C9 — expiry sweep -/

theorem get_channel_ne_zero (cfg : Config) (cid : Nat)
    (h : get_channel cfg cid = true) : ¬ cid = 0 := by
  intro h0
  rw [h0] at h
  simp [get_channel] at h

/-- One sweep entry whose message is found, expired, and whose delete
succeeds: the message is removed, the attempt logged, and the entry is
collected for removal. -/
theorem expireEntry_expired_ok (cfg : Config) (now mid cL : Nat) (st : BotState)
    (m : Msg) (hacc : get_channel cfg cL = true)
    (hf : fetch_message st cL mid = some m)
    (hage : cfg.postExpiryDays * 86400 < now - m.createdAt)
    (hdf : cfg.deleteFails mid = false) :
    expireEntryChans cfg now mid st [cL, 0] =
      (true, { st with
        deleteAttempts := st.deleteAttempts ++ [mid]
        messages := st.messages.filter (fun x => !(x.msgId == mid)) }) := by
  have h0 := get_channel_ne_zero cfg cL hacc
  simp only [expireEntryChans, h0, if_false, hacc, if_true, hf]
  simp [delete_message, hdf, hage]

/-- One sweep entry whose message is found and expired but whose delete
raises: the attempt is logged, the message survives, and the entry is NOT
collected (the loop falls through the remaining channel list). -/
theorem expireEntry_expired_fail (cfg : Config) (now mid cL : Nat) (st : BotState)
    (m : Msg) (hacc : get_channel cfg cL = true)
    (hf : fetch_message st cL mid = some m)
    (hage : cfg.postExpiryDays * 86400 < now - m.createdAt)
    (hdf : cfg.deleteFails mid = true) :
    expireEntryChans cfg now mid st [cL, 0] =
      (false, { st with deleteAttempts := st.deleteAttempts ++ [mid] }) := by
  have h0 := get_channel_ne_zero cfg cL hacc
  simp only [expireEntryChans, h0, if_false, hacc, if_true, hf]
  simp [delete_message, hdf, hage, expireEntryChans]

/-- One sweep entry whose message is found but not yet past the window: the
state is untouched and the entry is not collected. -/
theorem expireEntry_young (cfg : Config) (now mid cL : Nat) (st : BotState)
    (m : Msg) (hacc : get_channel cfg cL = true)
    (hf : fetch_message st cL mid = some m)
    (hage : ¬ (cfg.postExpiryDays * 86400 < now - m.createdAt)) :
    expireEntryChans cfg now mid st [cL, 0] = (false, st) := by
  have h0 := get_channel_ne_zero cfg cL hacc
  simp only [expireEntryChans, h0, if_false, hacc, if_true, hf]
  simp [hage, expireEntryChans]

set_option linter.unusedVariables false in
/-- Claim C9: with three registry entries in the (only configured) LFT channel —
entry 1 expired but with a failing delete, entry 2 expired with a clean
delete, entry 3 younger than the window — one sweep deletes and removes
exactly entry 2 (the failure on entry 1 does not abort the sweep), keeps
entry 1 in the registry with its message still present, and leaves the
young entry 3 untouched. -/
theorem expiry_law (cfg : Config) (st : BotState) (now : Nat)
    (u1 u2 u3 m1 m2 m3 c1 c2 c3 : Nat) (e1 e2 e3 : Embed)
    (hreg : st.activeMessageIds = [(u1, m1), (u2, m2), (u3, m3)])
    (hmsgs : st.messages =
      [{ channelId := cfg.lftChannelId, msgId := m1, createdAt := c1, embed := e1 },
       { channelId := cfg.lftChannelId, msgId := m2, createdAt := c2, embed := e2 },
       { channelId := cfg.lftChannelId, msgId := m3, createdAt := c3, embed := e3 }])
    (hacc : get_channel cfg cfg.lftChannelId = true)
    (hlfp : cfg.lfpChannelId = 0)
    (hu12 : u1 ≠ u2) (hu23 : u2 ≠ u3) (hu13 : u1 ≠ u3)
    (hm12 : m1 ≠ m2) (hm23 : m2 ≠ m3) (hm13 : m1 ≠ m3)
    (hf1 : cfg.deleteFails m1 = true) (hf2 : cfg.deleteFails m2 = false)
    (hage1 : cfg.postExpiryDays * 86400 < now - c1)
    (hage2 : cfg.postExpiryDays * 86400 < now - c2)
    (hage3 : ¬ (cfg.postExpiryDays * 86400 < now - c3)) :
    (lookupD (expireSweep cfg st now).activeMessageIds u2 = none) ∧
    (fetch_message (expireSweep cfg st now) cfg.lftChannelId m2 = none) ∧
    (m2 ∈ (expireSweep cfg st now).deleteAttempts) ∧
    (lookupD (expireSweep cfg st now).activeMessageIds u1 = some m1) ∧
    (lookupD (expireSweep cfg st now).activeMessageIds u3 = some m3) ∧
    (fetch_message (expireSweep cfg st now) cfg.lftChannelId m3 =
      some { channelId := cfg.lftChannelId, msgId := m3, createdAt := c3, embed := e3 }) := by
  have hb12 : (m1 == m2) = false := beq_eq_false_iff_ne.mpr hm12
  have hb23 : (m2 == m3) = false := beq_eq_false_iff_ne.mpr hm23
  have hb32 : (m3 == m2) = false := beq_eq_false_iff_ne.mpr (Ne.symm hm23)
  have hb13 : (m1 == m3) = false := beq_eq_false_iff_ne.mpr hm13
  have hb21 : (m2 == m1) = false := beq_eq_false_iff_ne.mpr (Ne.symm hm12)
  have hfetch1 : fetch_message st cfg.lftChannelId m1 =
      some { channelId := cfg.lftChannelId, msgId := m1, createdAt := c1, embed := e1 } := by
    simp [fetch_message, hmsgs, List.find?]
  have h1 := expireEntry_expired_fail cfg now m1 cfg.lftChannelId st _ hacc hfetch1 hage1 hf1
  have hfetch2 : fetch_message { st with deleteAttempts := st.deleteAttempts ++ [m1] }
      cfg.lftChannelId m2 =
      some { channelId := cfg.lftChannelId, msgId := m2, createdAt := c2, embed := e2 } := by
    simp [fetch_message, hmsgs, List.find?, hb12]
  have h2 := expireEntry_expired_ok cfg now m2 cfg.lftChannelId
    { st with deleteAttempts := st.deleteAttempts ++ [m1] } _ hacc hfetch2 hage2 hf2
  have hfetch3 : fetch_message
      { st with
        deleteAttempts := (st.deleteAttempts ++ [m1]) ++ [m2]
        messages := st.messages.filter (fun x => !(x.msgId == m2)) }
      cfg.lftChannelId m3 =
      some { channelId := cfg.lftChannelId, msgId := m3, createdAt := c3, embed := e3 } := by
    simp [fetch_message, hmsgs, List.filter, List.find?, hb12, hb32, hb13]
  have h3 := expireEntry_young cfg now m3 cfg.lftChannelId
    { st with
      deleteAttempts := (st.deleteAttempts ++ [m1]) ++ [m2]
      messages := st.messages.filter (fun x => !(x.msgId == m2)) } _ hacc hfetch3 hage3
  have hsweep : expireSweep cfg st now =
      { st with
        activeMessageIds := removeD st.activeMessageIds u2
        deleteAttempts := (st.deleteAttempts ++ [m1]) ++ [m2]
        messages := st.messages.filter (fun x => !(x.msgId == m2)) } := by
    unfold expireSweep
    rw [hreg]
    simp only [expireScan, hlfp, h1, h2, h3]
    simp [List.foldl]
    rw [hreg]
  rw [hsweep]
  refine ⟨?_, ?_, ?_, ?_, ?_, ?_⟩
  · simp [lookupD_removeD_self]
  · simp [fetch_message, hmsgs, List.filter, List.find?, hb12, hb32]
  · simp
  · rw [show ({ st with
        activeMessageIds := removeD st.activeMessageIds u2
        deleteAttempts := (st.deleteAttempts ++ [m1]) ++ [m2]
        messages := st.messages.filter (fun x => !(x.msgId == m2)) } : BotState).activeMessageIds
      = removeD st.activeMessageIds u2 from rfl]
    rw [lookupD_removeD_ne _ u1 u2 hu12, hreg]
    simp [lookupD]
  · rw [show ({ st with
        activeMessageIds := removeD st.activeMessageIds u2
        deleteAttempts := (st.deleteAttempts ++ [m1]) ++ [m2]
        messages := st.messages.filter (fun x => !(x.msgId == m2)) } : BotState).activeMessageIds
      = removeD st.activeMessageIds u2 from rfl]
    rw [lookupD_removeD_ne _ u3 u2 (Ne.symm hu23), hreg]
    simp [lookupD, hu13, hu23]
  · simp [fetch_message, hmsgs, List.filter, List.find?, hb12, hb32, hb13]

/-- World for the expiry scenario: only the LFT channel (id 1) is
configured, and deleting message 11 raises. -/
def c9Config : Config :=
  { lftChannelId := 1, lfpChannelId := 0, modQueueChannelId := 0,
    cooldownMinutes := 10, postExpiryDays := 7,
    accessible := fun cid => cid == 1, deleteFails := fun mid => mid == 11 }

/-- State for the expiry scenario: users 1, 2, 3 own messages 11, 12, 13;
messages 11 and 12 were created 8 days before the sweep, message 13 only 6
days before (sweep instant 691200 = day 8). -/
def c9State : BotState :=
  { lastPostAt := [], activeMessageIds := [(1, 11), (2, 12), (3, 13)],
    messages :=
      [{ channelId := 1, msgId := 11, createdAt := 0, embed := blankEmbed },
       { channelId := 1, msgId := 12, createdAt := 0, embed := blankEmbed },
       { channelId := 1, msgId := 13, createdAt := 172800, embed := blankEmbed }],
    published := [11, 12, 13], deleteAttempts := [], dms := [], nextMsgId := 14 }

/-- Claim C9 witness: the sweep at day 8 removes the 8-day-old entry of user 2
despite the failing delete of user 1 right before it, and leaves the 6-day
entry of user 3 untouched. -/
theorem expiry_law_witness :
    (lookupD (expireSweep c9Config c9State 691200).activeMessageIds 2 = none) ∧
    (fetch_message (expireSweep c9Config c9State 691200) c9Config.lftChannelId 12 = none) ∧
    (12 ∈ (expireSweep c9Config c9State 691200).deleteAttempts) ∧
    (lookupD (expireSweep c9Config c9State 691200).activeMessageIds 1 = some 11) ∧
    (lookupD (expireSweep c9Config c9State 691200).activeMessageIds 3 = some 13) ∧
    (fetch_message (expireSweep c9Config c9State 691200) c9Config.lftChannelId 13 =
      some { channelId := 1, msgId := 13, createdAt := 172800, embed := blankEmbed }) :=
  expiry_law c9Config c9State 691200 1 2 3 11 12 13 0 0 172800
    blankEmbed blankEmbed blankEmbed rfl rfl (by decide) rfl
    (by decide) (by decide) (by decide) (by decide) (by decide) (by decide)
    (by decide) (by decide) (by decide) (by decide) (by decide)

end LftBot
